import Mathlib

/-!
Verification of the shell-script test harness (test_runner.py and
parallel_test_runner.py) against its specification.

The harness runs test scripts as child processes.  The child process itself
(`subprocess.run`) is the platform boundary: its observable outcome is
modelled by the inductive `ChildOutcome` below, and every function of the
repository that consumes that outcome is translated as a pure Lean function
of it.  Durations are Python floats in the source; the values the claims
are about (the configured timeout, and the literal 0.0) are exact, so
durations are modelled as rationals.
-/

/-- Observable outcome of one `subprocess.run` invocation, the platform
boundary of the harness.  `completed` carries the returncode of the child
(negative = killed by that signal, per the POSIX convention surfaced by
Python), its captured stdout and stderr, and the measured wall-clock
duration.  `timedOut` is the `subprocess.TimeoutExpired` path and `raised`
is any other exception escaping `subprocess.run`, carrying `str(e)`. -/
inductive ChildOutcome where
  | completed (returncode : Int) (stdout stderr : String) (elapsed : ℚ)
  | timedOut
  | raised (msg : String)
deriving Repr, DecidableEq

/-- Result record of `run_test` in test_runner.py: the tuple
(name, returncode, stdout, stderr, duration). -/
structure SResult where
  name : String
  exit_code : Int
  stdout : String
  stderr : String
  duration : ℚ
deriving Repr, DecidableEq

/-- Result dictionary of `run_test` in parallel_test_runner.py: keys
name, exit_code, stdout, stderr, status. -/
structure PResult where
  name : String
  exit_code : Int
  stdout : String
  stderr : String
  status : String
deriving Repr, DecidableEq

namespace TR

/-- `run_test` of test_runner.py (lines 58-91).  The command construction
(including the optional kcov coverage wrapper, which only changes the
command and never the shape of the returned tuple) is abstracted into the
`ChildOutcome` argument.  The try block returns the tuple
(name, returncode, stdout, stderr, duration); `except TimeoutExpired`
returns (name, -1, "", f"Timeout after \x7btimeout\x7ds", timeout); the
catch-all `except Exception` returns
(name, -2, "", f"Unexpected error: \x7be\x7d", 0.0). -/
def run_test (scriptName : String) (timeout : Int) (outcome : ChildOutcome) : SResult :=
  match outcome with
  | .completed rc out err dur => ⟨scriptName, rc, out, err, dur⟩
  | .timedOut => ⟨scriptName, -1, "", "Timeout after " ++ toString timeout ++ "s", (timeout : ℚ)⟩
  | .raised msg => ⟨scriptName, -2, "", "Unexpected error: " ++ msg, 0⟩

end TR

namespace PTR

/-- `run_test` of parallel_test_runner.py (lines 56-89).  The source text
omits the `try:` keyword before the `subprocess.run` call (an evident slip:
the matching `except subprocess.TimeoutExpired:` and `except Exception`
clauses are present at function-body level, so the module as written is a
SyntaxError); the function is modelled with the try restored, following
the except clauses that are present.  Normal completion returns the dict
with status "PASS" iff returncode == 0 else "FAIL"; timeout returns
exit_code -1, empty stdout, stderr f"Timeout after \x7btimeout\x7ds",
status "TIMEOUT"; any other exception returns exit_code -2, empty stdout,
stderr str(exc), status "ERROR". -/
def run_test (scriptName : String) (timeout : Int) (outcome : ChildOutcome) : PResult :=
  match outcome with
  | .completed rc out err _ =>
      ⟨scriptName, rc, out, err, if rc = 0 then "PASS" else "FAIL"⟩
  | .timedOut => ⟨scriptName, -1, "", "Timeout after " ++ toString timeout ++ "s", "TIMEOUT"⟩
  | .raised msg => ⟨scriptName, -2, "", msg, "ERROR"⟩

/-- The classifier at parallel_test_runner.py line 66:
`status = "PASS" if result.returncode == 0 else "FAIL"`. -/
def classify_status (code : Int) : String :=
  if code = 0 then "PASS" else "FAIL"

/-- Applying the line-66 classifier to an ExecutionResult: the status field
is recomputed from the exit code, the other fields are untouched. -/
def classify (r : PResult) : PResult :=
  { r with status := classify_status r.exit_code }

end PTR

/-- Claim C10: on the timeout branch test_runner.run_test records a
duration equal to the configured timeout value (the literal `timeout`
argument, not a measured wall-clock time), and on the unexpected-error
branch it records a duration of exactly 0.0. -/
theorem c10_timeout_duration_is_configured_timeout
    (name : String) (timeout : Int) (msg : String) :
    (TR.run_test name timeout .timedOut).duration = (timeout : ℚ) ∧
    (TR.run_test name timeout (.raised msg)).duration = 0 := by
  exact ⟨rfl, rfl⟩

/-- Claim C2: both executors, on the unexpected-internal-error path,
convert the exception into a well-formed result with exit code -2 and a
diagnostic string in stderr (classification ERROR in the parallel
variant), and on every path the returned record carries the unit name —
run_test is a total function of the child outcome and never raises.
(The parallel source as written omits the `try:` line, a SyntaxError;
this theorem is about the evident intended code, with the try restored.) -/
theorem c2_run_test_total_and_error_branch
    (name : String) (timeout : Int) (msg : String) (outcome : ChildOutcome) :
    (TR.run_test name timeout (.raised msg)).exit_code = -2 ∧
    (TR.run_test name timeout (.raised msg)).stderr = "Unexpected error: " ++ msg ∧
    (PTR.run_test name timeout (.raised msg)).exit_code = -2 ∧
    (PTR.run_test name timeout (.raised msg)).stderr = msg ∧
    (PTR.run_test name timeout (.raised msg)).status = "ERROR" ∧
    (TR.run_test name timeout outcome).name = name ∧
    (PTR.run_test name timeout outcome).name = name := by
  refine ⟨rfl, rfl, rfl, rfl, rfl, ?_, ?_⟩ <;> cases outcome <;> rfl

/-- Claim C3: a unit whose child has not completed within the timeout
yields, in both executors, a result with exit code -1, empty stdout, and
the stderr message "Timeout after \x7btimeout\x7ds" — which states the
timeout duration and starts with the word "Timeout"; the parallel variant
labels it "TIMEOUT", never "PASS", and the serial exit code -1 is nonzero
so the serial classifier (code == 0 means PASS) never classifies it PASS. -/
theorem c3_timeout_result (name : String) (timeout : Int) :
    (TR.run_test name timeout .timedOut).exit_code = -1 ∧
    (TR.run_test name timeout .timedOut).stdout = "" ∧
    (TR.run_test name timeout .timedOut).stderr = "Timeout after " ++ toString timeout ++ "s" ∧
    (∃ rest, (TR.run_test name timeout .timedOut).stderr = "Timeout" ++ rest) ∧
    (TR.run_test name timeout .timedOut).exit_code ≠ 0 ∧
    (PTR.run_test name timeout .timedOut).exit_code = -1 ∧
    (PTR.run_test name timeout .timedOut).stdout = "" ∧
    (PTR.run_test name timeout .timedOut).status = "TIMEOUT" ∧
    (PTR.run_test name timeout .timedOut).status ≠ "PASS" := by
  refine ⟨rfl, rfl, rfl, ⟨" after " ++ toString timeout ++ "s", ?_⟩, ?_, rfl, rfl, rfl, ?_⟩
  · show "Timeout after " ++ toString timeout ++ "s" = "Timeout" ++ (" after " ++ toString timeout ++ "s")
    have h : "Timeout after " = "Timeout" ++ " after " := by decide
    rw [h, String.append_assoc, String.append_assoc, String.append_assoc]
  · simp [TR.run_test]
  · simp [PTR.run_test]

/-- Claim C5: for a normally completed unit the recorded exit code is the
child returncode, and the line-66 classifier labels the result "PASS" iff
the exit code is 0 and "FAIL" otherwise; recomputing the status from an
already classified result changes nothing (idempotence). -/
theorem c5_classification_pass_iff_zero_and_idempotent
    (name : String) (timeout : Int) (rc : Int) (out err : String) (dur : ℚ) :
    (PTR.run_test name timeout (.completed rc out err dur)).exit_code = rc ∧
    ((PTR.run_test name timeout (.completed rc out err dur)).status = "PASS" ↔ rc = 0) ∧
    (rc ≠ 0 → (PTR.run_test name timeout (.completed rc out err dur)).status = "FAIL") ∧
    (∀ r : PResult, PTR.classify (PTR.classify r) = PTR.classify r) ∧
    (PTR.run_test name timeout (.completed rc out err dur)).status
      = PTR.classify_status rc := by
  refine ⟨rfl, ?_, ?_, ?_, rfl⟩
  · by_cases h : rc = 0
    · subst h; simp [PTR.run_test]
    · simp [PTR.run_test, h]
  · intro h; simp [PTR.run_test, h]
  · intro r; simp [PTR.classify, PTR.classify_status]

/-- Witness for c5: a concrete failing completion (exit code 1) is
recorded as exit code 1 and classified FAIL. -/
theorem c5_witness :
    (PTR.run_test "test_fail.sh" 30 (.completed 1 "" "boom" 0)).exit_code = 1 ∧
    (PTR.run_test "test_fail.sh" 30 (.completed 1 "" "boom" 0)).status = "FAIL" := by
  have h := c5_classification_pass_iff_zero_and_idempotent "test_fail.sh" 30 1 "" "boom" 0
  exact ⟨h.1, h.2.2.1 (by decide)⟩

/-- One directory entry of the abstract filesystem handed to discovery.
`name` is the filename inside the searched directory, `canonical` is the
resolved absolute path (Path.resolve), `contents` is the file text
(Path.read_text) and `isFile` is Path.is_file.  A non-existent or empty
directory is the empty list (Path.glob of a missing directory yields
nothing). -/
structure FileEnt where
  name : String
  canonical : String
  contents : String
  isFile : Bool
deriving Repr, DecidableEq

/-- Fuel-driven core of the glob matcher used by Path.glob for a single
path component: `*` matches any (possibly empty) run of characters, `?`
matches exactly one character, every other character matches itself.
(Character classes `[seq]` are not used by the repository and are not
modelled.)  The fuel only forces termination; `globMatch` supplies enough
fuel that it is never exhausted (each step shrinks pattern + input). -/
def globMatchAux : Nat → List Char → List Char → Bool
  | 0, _, _ => false
  | _ + 1, [], cs => cs.isEmpty
  | fuel + 1, p :: ps, cs =>
      if p = '*' then
        globMatchAux fuel ps cs ||
          (match cs with
           | [] => false
           | _ :: cs2 => globMatchAux fuel ('*' :: ps) cs2)
      else
        match cs with
        | [] => false
        | c :: cs2 => (p = '?' || p = c) && globMatchAux fuel ps cs2

/-- Glob-style match of a filename against a pattern such as "test_*.sh". -/
def globMatch (pattern name : String) : Bool :=
  globMatchAux (pattern.length + name.length + 1) pattern.data name.data

/-- Python regex class \s over the ASCII range. -/
def wsChar (c : Char) : Bool :=
  c = ' ' || c = '\t' || c = '\n' || c = '\r' || c = '\x0b' || c = '\x0c'

/-- Python regex class \w over the ASCII range: letters, digits, underscore. -/
def wordChar (c : Char) : Bool :=
  c.isAlphanum || c = '_'

/-- Fuel-driven scan equivalent to
`re.findall(r"#\s*@(\w+)", contents)` (parallel_test_runner.py line 51):
a left-to-right non-overlapping search for a `#`, then any run of
whitespace, then `@`, then a maximal nonempty run of word characters,
which is the captured tag.  On a failed match the scan resumes one
character after the `#`; on a successful match it resumes after the
captured word.  The fuel only forces termination (each step strictly
shrinks the input); `scanTags` supplies enough. -/
def scanTagsAux : Nat → List Char → List String
  | 0, _ => []
  | _ + 1, [] => []
  | fuel + 1, c :: rest =>
      if c = '#' then
        match rest.dropWhile wsChar with
        | '@' :: rest2 =>
            match rest2.takeWhile wordChar with
            | [] => scanTagsAux fuel rest
            | word => String.mk word :: scanTagsAux fuel (rest2.dropWhile wordChar)
        | _ => scanTagsAux fuel rest
      else scanTagsAux fuel rest

/-- All tag annotations found in a unit source text. -/
def scanTags (s : String) : List String :=
  scanTagsAux (s.data.length + 1) s.data

/-- Lexicographic comparison of character lists by code point, the order
Python uses to compare strings (and hence to `sorted(...)` paths that
share a directory). -/
def lexLe : List Char → List Char → Bool
  | [], _ => true
  | _ :: _, [] => false
  | a :: as, b :: bs => if a = b then lexLe as bs else decide (a < b)

/-- The string order used by `sorted(...)`: code-point lexicographic. -/
def strLe (a b : String) : Prop :=
  lexLe a.data b.data = true

instance : DecidableRel strLe :=
  fun a b => inferInstanceAs (Decidable (lexLe a.data b.data = true))

theorem lexLe_trans : ∀ a b c : List Char,
    lexLe a b = true → lexLe b c = true → lexLe a c = true := by
  intro a
  induction a with
  | nil => intro b c _ _; rfl
  | cons x xs ih =>
    intro b c hab hbc
    cases b with
    | nil => simp [lexLe] at hab
    | cons y ys =>
      cases c with
      | nil => simp [lexLe] at hbc
      | cons z zs =>
        simp only [lexLe] at hab hbc ⊢
        by_cases hxy : x = y
        · subst hxy
          simp only [if_pos rfl] at hab
          by_cases hxz : x = z
          · subst hxz
            simp only [if_pos rfl] at hbc ⊢
            exact ih ys zs hab hbc
          · simp only [if_neg hxz] at hbc ⊢
            exact hbc
        · simp only [if_neg hxy, decide_eq_true_eq] at hab
          by_cases hyz : y = z
          · subst hyz
            simp only [if_neg hxy, decide_eq_true_eq]
            exact hab
          · simp only [if_neg hyz, decide_eq_true_eq] at hbc
            have hxz : x < z := lt_trans hab hbc
            simp only [if_neg (ne_of_lt hxz), decide_eq_true_eq]
            exact hxz

theorem lexLe_total : ∀ a b : List Char, lexLe a b = true ∨ lexLe b a = true := by
  intro a
  induction a with
  | nil => intro b; left; rfl
  | cons x xs ih =>
    intro b
    cases b with
    | nil => right; rfl
    | cons y ys =>
      simp only [lexLe]
      by_cases hxy : x = y
      · subst hxy
        simp only [if_pos rfl]
        exact ih ys
      · rcases lt_or_gt_of_ne hxy with h | h
        · left
          simp only [if_neg hxy, decide_eq_true_eq]
          exact h
        · right
          simp only [if_neg (Ne.symm hxy), decide_eq_true_eq]
          exact h

instance : IsTrans String strLe :=
  ⟨fun a b c hab hbc => lexLe_trans a.data b.data c.data hab hbc⟩

instance : IsTotal String strLe :=
  ⟨fun a b => lexLe_total a.data b.data⟩

/-- The deterministic ordering applied by `sorted(...)` on paths that
share a directory: lexicographic order on the path strings. -/
def sortNames (l : List String) : List String :=
  List.insertionSort strLe l

namespace PTR

/-- `find_test_scripts` of parallel_test_runner.py (lines 40-53): glob
`test_*.sh` in the directory, keep regular files; with no tag filter
return them sorted; with a tag filter keep a script iff any requested tag
occurs among the tags scanned from its contents, then sort. -/
def find_test_scripts (fs : List FileEnt) (tags : List String) : List String :=
  let scripts := fs.filter (fun f => globMatch "test_*.sh" f.name && f.isFile)
  if tags = [] then
    sortNames (scripts.map FileEnt.name)
  else
    sortNames
      ((scripts.filter (fun f => tags.any (fun t => (scanTags f.contents).contains t))).map
        FileEnt.name)

end PTR

namespace TR

/-- `find_test_scripts` of test_runner.py (lines 48-56): glob each pattern
in the directory, collect all matches, keep regular files, deduplicate by
resolved (canonical) path, and return them sorted. -/
def find_test_scripts (fs : List FileEnt) (patterns : List String) : List String :=
  let scripts := patterns.flatMap (fun pat => fs.filter (fun f => globMatch pat f.name))
  sortNames (((scripts.filter FileEnt.isFile).map FileEnt.canonical).dedup)

end TR

theorem flatMap_const_nil {α β : Type} (l : List α) :
    (l.flatMap fun _ => ([] : List β)) = [] := by
  induction l with
  | nil => rfl
  | cons x xs _ => simp [List.flatMap]

theorem ptr_find_test_scripts_no_filter (fs : List FileEnt) :
    PTR.find_test_scripts fs [] =
      sortNames ((fs.filter (fun f => globMatch "test_*.sh" f.name && f.isFile)).map
        FileEnt.name) := rfl

theorem ptr_find_test_scripts_with_filter (fs : List FileEnt) (t : String) (ts : List String) :
    PTR.find_test_scripts fs (t :: ts) =
      sortNames
        (((fs.filter (fun f => globMatch "test_*.sh" f.name && f.isFile)).filter
            (fun f => (t :: ts).any (fun tg => (scanTags f.contents).contains tg))).map
          FileEnt.name) := rfl

/-- Claim C6: with a tag filter active, discovery retains exactly the
glob-matched regular files whose source text carries at least one scanned
annotation among the requested tags (so a unit with no annotation is
excluded); with no tag filter every glob-matched regular file is
retained. -/
theorem c6_tag_filter_membership (fs : List FileEnt) (tags : List String) (x : String) :
    (tags ≠ [] →
      (x ∈ PTR.find_test_scripts fs tags ↔
        ∃ f ∈ fs, f.name = x ∧ globMatch "test_*.sh" f.name = true ∧ f.isFile = true ∧
          ∃ t ∈ tags, t ∈ scanTags f.contents)) ∧
    (x ∈ PTR.find_test_scripts fs [] ↔
      ∃ f ∈ fs, f.name = x ∧ globMatch "test_*.sh" f.name = true ∧ f.isFile = true) := by
  constructor
  · intro h
    match tags with
    | [] => exact absurd rfl h
    | t :: ts =>
      rw [ptr_find_test_scripts_with_filter]
      simp only [sortNames, List.mem_insertionSort, List.mem_map, List.mem_filter,
        Bool.and_eq_true, List.any_eq_true]
      constructor
      · rintro ⟨f, ⟨⟨hf, hglob, hfile⟩, t2, ht2, htag⟩, hname⟩
        exact ⟨f, hf, hname, hglob, hfile, t2, ht2, by simpa using htag⟩
      · rintro ⟨f, hf, hname, hglob, hfile, t2, ht2, htag⟩
        exact ⟨f, ⟨⟨hf, hglob, hfile⟩, t2, ht2, by simpa using htag⟩, hname⟩
  · rw [ptr_find_test_scripts_no_filter]
    simp only [sortNames, List.mem_insertionSort, List.mem_map, List.mem_filter,
      Bool.and_eq_true]
    constructor
    · rintro ⟨f, ⟨hf, hglob, hfile⟩, hname⟩
      exact ⟨f, hf, hname, hglob, hfile⟩
    · rintro ⟨f, hf, hname, hglob, hfile⟩
      exact ⟨f, ⟨hf, hglob, hfile⟩, hname⟩

/-- Witness for c6: the example of the claim.  Two regular files
test_success.sh (no annotation) and test_tagged.sh (annotated `# @slow`):
filtering by ["slow"] returns exactly ["test_tagged.sh"], and the
membership characterization of c6_tag_filter_membership holds at this
input. -/
theorem c6_tag_filter_membership_witness :
    PTR.find_test_scripts
      [⟨"test_success.sh", "/t/test_success.sh", "#!/bin/bash\nexit 0\n", true⟩,
       ⟨"test_tagged.sh", "/t/test_tagged.sh", "#!/bin/bash\n# @slow\nexit 0\n", true⟩]
      ["slow"] = ["test_tagged.sh"] ∧
    (("test_tagged.sh" : String) ∈ PTR.find_test_scripts
      [⟨"test_success.sh", "/t/test_success.sh", "#!/bin/bash\nexit 0\n", true⟩,
       ⟨"test_tagged.sh", "/t/test_tagged.sh", "#!/bin/bash\n# @slow\nexit 0\n", true⟩]
      ["slow"] ↔
      ∃ f ∈ [(⟨"test_success.sh", "/t/test_success.sh", "#!/bin/bash\nexit 0\n", true⟩ : FileEnt),
             ⟨"test_tagged.sh", "/t/test_tagged.sh", "#!/bin/bash\n# @slow\nexit 0\n", true⟩],
        f.name = "test_tagged.sh" ∧ globMatch "test_*.sh" f.name = true ∧ f.isFile = true ∧
          ∃ t ∈ ["slow"], t ∈ scanTags f.contents) := by
  refine ⟨by decide, ?_⟩
  exact (c6_tag_filter_membership
    [⟨"test_success.sh", "/t/test_success.sh", "#!/bin/bash\nexit 0\n", true⟩,
     ⟨"test_tagged.sh", "/t/test_tagged.sh", "#!/bin/bash\n# @slow\nexit 0\n", true⟩]
    ["slow"] "test_tagged.sh").1 (by decide)

/-- Claim C7: for every abstract directory listing and every pattern list,
serial discovery returns a duplicate-free list, sorted by canonical path,
whose members are exactly the canonical paths of the regular files
matching at least one pattern; the empty listing (in particular a
non-existent directory, whose glob yields nothing) gives the empty
result. -/
theorem c7_discovery_dedup_sorted (fs : List FileEnt) (patterns : List String) :
    (TR.find_test_scripts fs patterns).Nodup ∧
    (TR.find_test_scripts fs patterns).Sorted strLe ∧
    (∀ x, x ∈ TR.find_test_scripts fs patterns ↔
      ∃ f ∈ fs, f.isFile = true ∧ f.canonical = x ∧
        ∃ pat ∈ patterns, globMatch pat f.name = true) ∧
    TR.find_test_scripts [] patterns = [] := by
  refine ⟨?_, ?_, ?_, ?_⟩
  · exact (List.perm_insertionSort strLe _).symm.nodup (List.nodup_dedup _)
  · exact List.sorted_insertionSort strLe _
  · intro x
    simp only [TR.find_test_scripts, sortNames, List.mem_insertionSort, List.mem_dedup,
      List.mem_map, List.mem_filter, List.mem_flatMap]
    constructor
    · rintro ⟨f, ⟨⟨pat, hpat, hf, hglob⟩, hfile⟩, hcanon⟩
      exact ⟨f, hf, hfile, hcanon, pat, hpat, hglob⟩
    · rintro ⟨f, hf, hfile, hcanon, pat, hpat, hglob⟩
      exact ⟨f, ⟨⟨pat, hpat, hf, hglob⟩, hfile⟩, hcanon⟩
  · simp [TR.find_test_scripts, sortNames, flatMap_const_nil, List.insertionSort]

namespace TR

/-- The result-collection loop of run_all_tests (test_runner.py lines
104-121): for each discovered script, in order, one run_test call and one
results.append of the dict built from the returned tuple.  A unit is the
pair of its script name and the outcome of its child process. -/
def run_all (units : List (String × ChildOutcome)) (timeout : Int) : List SResult :=
  units.map (fun u => run_test u.1 timeout u.2)

/-- The failures list of run_all_tests (lines 122-129): the loop appends
the name of every result whose exit code is nonzero, in result order. -/
def failures (results : List SResult) : List String :=
  (results.filter (fun r => r.exit_code != 0)).map SResult.name

/-- The exit decision of run_all_tests (lines 144-151): `exit(1)` when
the failures list is nonempty, otherwise `exit(0)`. -/
def exit_status (results : List SResult) : Nat :=
  if failures results = [] then 0 else 1

end TR

namespace PTR

/-- The as-completed collection loop of run_all_tests
(parallel_test_runner.py lines 92-109): one future is submitted per
script, each future yields exactly one run_test result, and results are
appended in completion order — some permutation of the submission order.
`completed` is the submitted unit list in completion order. -/
def run_all_tests (completed : List (String × ChildOutcome)) (timeout : Int) : List PResult :=
  completed.map (fun u => run_test u.1 timeout u.2)

/-- The exit status of `main` of parallel_test_runner.py (lines 150-167):
discovery; on zero scripts a bare `return`; otherwise run_all_tests, a
passed count that is only logged, and optional report writing.  On every
path main returns None, so the interpreter exits with status 0.  The
child outcome of each discovered script is given by `outcomes`. -/
def main_exit_status (fs : List FileEnt) (tags : List String)
    (outcomes : String → ChildOutcome) (timeout : Int) : Nat :=
  let scripts := find_test_scripts fs tags
  if scripts = [] then 0
  else
    let results := run_all_tests (scripts.map (fun s => (s, outcomes s))) timeout
    let _passed := (results.filter (fun r => r.status == "PASS")).length
    0

end PTR

theorem tr_failures_eq_nil_iff (results : List SResult) :
    TR.failures results = [] ↔ ∀ r ∈ results, r.exit_code = 0 := by
  simp [TR.failures]

/-- Claim C1 (amended): the serial runner exits with status 0 iff every
collected result has exit code 0 (in particular the empty run exits 0)
and with status 1 otherwise; the parallel runner main, by contrast,
always produces process exit status 0, whatever the results are. -/
theorem c1_exit_status (results : List SResult) (fs : List FileEnt)
    (tags : List String) (outcomes : String → ChildOutcome) (timeout : Int) :
    TR.exit_status results = (if ∀ r ∈ results, r.exit_code = 0 then 0 else 1) ∧
    TR.exit_status [] = 0 ∧
    PTR.main_exit_status fs tags outcomes timeout = 0 := by
  refine ⟨?_, rfl, ?_⟩
  · by_cases h : ∀ r ∈ results, r.exit_code = 0
    · rw [if_pos h, TR.exit_status, if_pos ((tr_failures_eq_nil_iff results).mpr h)]
    · rw [if_neg h, TR.exit_status,
        if_neg (fun hnil => h ((tr_failures_eq_nil_iff results).mp hnil))]
  · simp [PTR.main_exit_status]

/-- Counterexample to claim C1 as stated: a run of the parallel runner
whose single collected result has exit code 1 (a failing unit) still
terminates with process exit status 0, because main never sets an exit
status — the claimed "otherwise exits 1" is false for
parallel_test_runner.main. -/
theorem c1_counterexample_parallel_main_exits_zero_on_failure :
    PTR.main_exit_status [⟨"test_fail.sh", "/t/test_fail.sh", "exit 1\n", true⟩] []
      (fun _ => .completed 1 "" "" 0) 30 = 0 ∧
    (PTR.run_test "test_fail.sh" 30 (.completed 1 "" "" 0)).exit_code ≠ 0 ∧
    PTR.find_test_scripts [⟨"test_fail.sh", "/t/test_fail.sh", "exit 1\n", true⟩] []
      = ["test_fail.sh"] := by
  exact ⟨by decide, by decide, by decide⟩

/-- Claim C4: whatever order the pool completes the submitted units in,
the collected result list has exactly the length of the submitted unit
list and is a permutation of the one-result-per-unit mapping (no unit
dropped or duplicated, including units whose execution raised a
harness-level error); likewise the serial loop returns one result per
script. -/
theorem c4_one_result_per_unit (units completed : List (String × ChildOutcome))
    (timeout : Int) (h : completed.Perm units) :
    (PTR.run_all_tests completed timeout).length = units.length ∧
    (PTR.run_all_tests completed timeout).Perm
      (units.map (fun u => PTR.run_test u.1 timeout u.2)) ∧
    (TR.run_all units timeout).length = units.length := by
  refine ⟨?_, h.map _, by simp [TR.run_all]⟩
  simp [PTR.run_all_tests, h.length_eq]

/-- Witness for c4: two units completing in the reverse of submission
order — one passing, one raising a harness-level error — still produce
exactly two results, a permutation of the per-unit results. -/
theorem c4_one_result_per_unit_witness :
    ([("test_err.sh", ChildOutcome.raised "boom"),
      ("test_success.sh", ChildOutcome.completed 0 "ok" "" 1)].Perm
      [("test_success.sh", ChildOutcome.completed 0 "ok" "" 1),
       ("test_err.sh", ChildOutcome.raised "boom")]) ∧
    (PTR.run_all_tests
      [("test_err.sh", ChildOutcome.raised "boom"),
       ("test_success.sh", ChildOutcome.completed 0 "ok" "" 1)] 30).length =
      [("test_success.sh", ChildOutcome.completed 0 "ok" "" 1),
       ("test_err.sh", ChildOutcome.raised "boom")].length := by
  refine ⟨by decide, ?_⟩
  exact (c4_one_result_per_unit
    [("test_success.sh", ChildOutcome.completed 0 "ok" "" 1),
     ("test_err.sh", ChildOutcome.raised "boom")]
    [("test_err.sh", ChildOutcome.raised "boom"),
     ("test_success.sh", ChildOutcome.completed 0 "ok" "" 1)] 30 (by decide)).1

/-- Counterexample to claim C8 as stated: a child terminated by signal 1
(SIGHUP) is reported by the platform as returncode -1, so the serial
runner records exit code -1 — the same exit code as a timeout — and with
empty stdout, a stderr that happens to read "Timeout after 30s" and a
measured duration of 30, the resulting ExecutionResult is literally equal
to the result of a timed-out unit: the signal result is not
distinguishable from a timeout result. -/
theorem c8_counterexample_sighup_equals_timeout :
    (TR.run_test "edge_signal.sh" 30 (.completed (-1) "" "Timeout after 30s" 30)).exit_code
      = -1 ∧
    TR.run_test "edge_signal.sh" 30 (.completed (-1) "" "Timeout after 30s" 30)
      = TR.run_test "edge_signal.sh" 30 .timedOut := by
  exact ⟨rfl, by decide⟩

/-- Claim C8 (amended): a signal-terminated unit is recorded with the
negated signal number as exit code and classified FAIL (never PASS); in
the parallel runner the status field always distinguishes it from a
timeout (FAIL vs TIMEOUT), and in the serial runner the exit code
distinguishes it from the timeout code -1 for every signal other than
signal 1 — for signal 1 the codes collide (see the counterexample). -/
theorem c8_signal_negated_exit_code_and_fail
    (name out err : String) (timeout : Int) (dur : ℚ) (sig : Nat) (h1 : 1 ≤ sig) :
    (TR.run_test name timeout (.completed (-(sig : Int)) out err dur)).exit_code
      = -(sig : Int) ∧
    (TR.run_test name timeout (.completed (-(sig : Int)) out err dur)).exit_code ≠ 0 ∧
    (PTR.run_test name timeout (.completed (-(sig : Int)) out err dur)).status = "FAIL" ∧
    (PTR.run_test name timeout (.completed (-(sig : Int)) out err dur)).status ≠
      (PTR.run_test name timeout .timedOut).status ∧
    (2 ≤ sig →
      (TR.run_test name timeout (.completed (-(sig : Int)) out err dur)).exit_code ≠
        (TR.run_test name timeout .timedOut).exit_code) := by
  have hne : -((sig : Int)) ≠ 0 := by omega
  refine ⟨rfl, hne, ?_, ?_, ?_⟩
  · simp [PTR.run_test, hne]
  · simp [PTR.run_test, hne]
  · intro h2
    show -((sig : Int)) ≠ -1
    omega

/-- Witness for c8: a child killed by SIGKILL (signal 9) yields exit code
-9, is classified FAIL, and its exit code differs from the timeout code. -/
theorem c8_signal_negated_exit_code_and_fail_witness :
    (1 ≤ 9 ∧
      (TR.run_test "edge_signal.sh" 30 (.completed (-(9 : Nat) : Int) "" "" 1)).exit_code
        = -((9 : Nat) : Int)) ∧
    (2 ≤ 9 →
      (TR.run_test "edge_signal.sh" 30 (.completed (-(9 : Nat) : Int) "" "" 1)).exit_code ≠
        (TR.run_test "edge_signal.sh" 30 .timedOut).exit_code) := by
  have h := c8_signal_negated_exit_code_and_fail "edge_signal.sh" "" "" 30 1 9 (by decide)
  exact ⟨⟨by decide, h.1⟩, h.2.2.2.2⟩

/-- The fragment of the JSON value universe produced by `json.dump` on the
result data of this repository: strings, integers, numbers, arrays and
objects with ordered fields (json.dump preserves list order and the
insertion order of dict keys). -/
inductive Json where
  | str (s : String)
  | int (n : Int)
  | num (q : ℚ)
  | arr (elems : List Json)
  | obj (fields : List (String × Json))
deriving Repr

/-- The serialized form of one serial result dict (test_runner.py lines
112-121): keys name, exit_code, stdout, stderr, duration in insertion
order. -/
def SResult.toJson (r : SResult) : Json :=
  .obj [("name", .str r.name), ("exit_code", .int r.exit_code), ("stdout", .str r.stdout),
        ("stderr", .str r.stderr), ("duration", .num r.duration)]

/-- The serialized form of one parallel result dict
(parallel_test_runner.py lines 67-73): keys name, exit_code, stdout,
stderr, status in insertion order. -/
def PResult.toJson (r : PResult) : Json :=
  .obj [("name", .str r.name), ("exit_code", .int r.exit_code), ("stdout", .str r.stdout),
        ("stderr", .str r.stderr), ("status", .str r.status)]

namespace TR

/-- `save_json_report` of test_runner.py (lines 13-16): the document
written is the JSON array of the result dicts, in list order. -/
def save_json_report (results : List SResult) : Json :=
  .arr (results.map SResult.toJson)

end TR

namespace PTR

/-- `save_json_report` of parallel_test_runner.py (lines 112-115): the
document written is the JSON array of the result dicts, in list order. -/
def save_json_report (results : List PResult) : Json :=
  .arr (results.map PResult.toJson)

end PTR

/-- Field access on a parsed JSON object; none on any other node. -/
def Json.field (j : Json) (k : String) : Option Json :=
  match j with
  | .obj fields => fields.lookup k
  | _ => none

/-- The element list of a parsed JSON array; empty on any other node. -/
def Json.elems (j : Json) : List Json :=
  match j with
  | .arr es => es
  | _ => []

/-- Reading one report entry back: its name and exit_code fields. -/
def nameCode (j : Json) : Option (String × Int) :=
  match j.field "name", j.field "exit_code" with
  | some (.str n), some (.int c) => some (n, c)
  | _, _ => none

/-- Reading every entry of a parsed array back; none if any entry is not
a well-formed report object. -/
def readEntries : List Json → Option (List (String × Int))
  | [] => some []
  | j :: js =>
      match nameCode j, readEntries js with
      | some p, some ps => some (p :: ps)
      | _, _ => none

/-- Parsing a written report back into its name-to-exit_code mapping. -/
def parseNameCodes (j : Json) : Option (List (String × Int)) :=
  match j with
  | .arr es => readEntries es
  | _ => none

theorem nameCode_sresult_toJson (r : SResult) :
    nameCode r.toJson = some (r.name, r.exit_code) := rfl

theorem nameCode_presult_toJson (r : PResult) :
    nameCode r.toJson = some (r.name, r.exit_code) := rfl

theorem readEntries_sresults (results : List SResult) :
    readEntries (results.map SResult.toJson)
      = some (results.map fun r => (r.name, r.exit_code)) := by
  induction results with
  | nil => rfl
  | cons r rs ih => simp [readEntries, nameCode_sresult_toJson, ih]

theorem readEntries_presults (results : List PResult) :
    readEntries (results.map PResult.toJson)
      = some (results.map fun r => (r.name, r.exit_code)) := by
  induction results with
  | nil => rfl
  | cons r rs ih => simp [readEntries, nameCode_presult_toJson, ih]

/-- Claim C9: both JSON reporters write an array with exactly one element
per result; the i-th element carries the i-th result's exit code in its
exit_code field; and parsing the document back recovers exactly the
name-to-exit_code association list of the results (round-trip). -/
theorem c9_json_report_roundtrip (results : List SResult) (presults : List PResult) :
    (TR.save_json_report results).elems.length = results.length ∧
    (PTR.save_json_report presults).elems.length = presults.length ∧
    (∀ i, i < results.length →
      ∃ j, (TR.save_json_report results).elems.get? i = some j ∧
        ∃ r, results.get? i = some r ∧ j.field "exit_code" = some (.int r.exit_code)) ∧
    (∀ i, i < presults.length →
      ∃ j, (PTR.save_json_report presults).elems.get? i = some j ∧
        ∃ r, presults.get? i = some r ∧ j.field "exit_code" = some (.int r.exit_code)) ∧
    parseNameCodes (TR.save_json_report results)
      = some (results.map fun r => (r.name, r.exit_code)) ∧
    parseNameCodes (PTR.save_json_report presults)
      = some (presults.map fun r => (r.name, r.exit_code)) := by
  refine ⟨by simp [TR.save_json_report, Json.elems], by simp [PTR.save_json_report, Json.elems],
    ?_, ?_, ?_, ?_⟩
  · intro i hi
    have hr := List.get?_eq_get hi
    refine ⟨(results.get ⟨i, hi⟩).toJson, ?_, results.get ⟨i, hi⟩, hr, rfl⟩
    show (results.map SResult.toJson).get? i = _
    rw [List.get?_map, hr]
    rfl
  · intro i hi
    have hr := List.get?_eq_get hi
    refine ⟨(presults.get ⟨i, hi⟩).toJson, ?_, presults.get ⟨i, hi⟩, hr, rfl⟩
    show (presults.map PResult.toJson).get? i = _
    rw [List.get?_map, hr]
    rfl
  · exact readEntries_sresults results
  · exact readEntries_presults presults

/-- Witness for c9: a concrete two-result report — the first element of
the written array carries exit code 0, and the parsed-back mapping is
exactly the name/exit_code pairs of the two results. -/
theorem c9_json_report_roundtrip_witness :
    ((0 : Nat) < 2 ∧
      ∃ j, (TR.save_json_report
          [⟨"test_success.sh", 0, "ok", "", 1⟩, ⟨"test_fail.sh", 1, "", "bad", 2⟩]).elems.get? 0
            = some j ∧
        ∃ r, ([(⟨"test_success.sh", 0, "ok", "", 1⟩ : SResult),
               ⟨"test_fail.sh", 1, "", "bad", 2⟩]).get? 0 = some r ∧
          j.field "exit_code" = some (.int r.exit_code)) ∧
    parseNameCodes (TR.save_json_report
        [⟨"test_success.sh", 0, "ok", "", 1⟩, ⟨"test_fail.sh", 1, "", "bad", 2⟩])
      = some [("test_success.sh", 0), ("test_fail.sh", 1)] := by
  have h := c9_json_report_roundtrip
    [⟨"test_success.sh", 0, "ok", "", 1⟩, ⟨"test_fail.sh", 1, "", "bad", 2⟩] []
  exact ⟨⟨by decide, h.2.2.1 0 (by decide)⟩, h.2.2.2.2.1⟩

/-- Witness for c10: with a 5-second timeout, the timeout result records
duration 5 exactly and the error result records duration 0. -/
theorem c10_timeout_duration_is_configured_timeout_witness :
    (TR.run_test "edge_timeout.sh" 5 .timedOut).duration = ((5 : Int) : ℚ) ∧
    (TR.run_test "edge_timeout.sh" 5 (.raised "boom")).duration = 0 :=
  c10_timeout_duration_is_configured_timeout "edge_timeout.sh" 5 "boom"

/-- Witness for c2: the error branch at a concrete diagnostic, and
totality at the concrete timeout outcome. -/
theorem c2_run_test_total_and_error_branch_witness :
    (TR.run_test "test_success.sh" 30 (.raised "boom")).exit_code = -2 ∧
    (TR.run_test "test_success.sh" 30 (.raised "boom")).stderr = "Unexpected error: " ++ "boom" ∧
    (PTR.run_test "test_success.sh" 30 (.raised "boom")).exit_code = -2 ∧
    (PTR.run_test "test_success.sh" 30 (.raised "boom")).stderr = "boom" ∧
    (PTR.run_test "test_success.sh" 30 (.raised "boom")).status = "ERROR" ∧
    (TR.run_test "test_success.sh" 30 .timedOut).name = "test_success.sh" ∧
    (PTR.run_test "test_success.sh" 30 .timedOut).name = "test_success.sh" :=
  c2_run_test_total_and_error_branch "test_success.sh" 30 "boom" .timedOut

/-- Witness for c3: a unit timing out under a 1-second timeout. -/
theorem c3_timeout_result_witness :
    (TR.run_test "edge_timeout.sh" 1 .timedOut).exit_code = -1 ∧
    (TR.run_test "edge_timeout.sh" 1 .timedOut).stdout = "" ∧
    (TR.run_test "edge_timeout.sh" 1 .timedOut).stderr
      = "Timeout after " ++ toString (1 : Int) ++ "s" ∧
    (∃ rest, (TR.run_test "edge_timeout.sh" 1 .timedOut).stderr = "Timeout" ++ rest) ∧
    (TR.run_test "edge_timeout.sh" 1 .timedOut).exit_code ≠ 0 ∧
    (PTR.run_test "edge_timeout.sh" 1 .timedOut).exit_code = -1 ∧
    (PTR.run_test "edge_timeout.sh" 1 .timedOut).stdout = "" ∧
    (PTR.run_test "edge_timeout.sh" 1 .timedOut).status = "TIMEOUT" ∧
    (PTR.run_test "edge_timeout.sh" 1 .timedOut).status ≠ "PASS" :=
  c3_timeout_result "edge_timeout.sh" 1

/-- Witness for c1 (amended): a single failing result gives serial exit
status 1 under the if-characterization, and a concrete parallel main run
exits 0. -/
theorem c1_exit_status_witness :
    TR.exit_status [⟨"test_fail.sh", 1, "", "", 0⟩]
      = (if ∀ r ∈ [(⟨"test_fail.sh", 1, "", "", 0⟩ : SResult)], r.exit_code = 0 then 0 else 1) ∧
    TR.exit_status [] = 0 ∧
    PTR.main_exit_status [] [] (fun _ => .timedOut) 30 = 0 :=
  c1_exit_status [⟨"test_fail.sh", 1, "", "", 0⟩] [] [] (fun _ => .timedOut) 30

/-- Witness for c7: the membership characterization evaluated at a
concrete two-file listing, plus the non-existent-directory clause. -/
theorem c7_discovery_dedup_sorted_witness :
    (("/t/test_a.sh" : String) ∈ TR.find_test_scripts
        [⟨"test_b.sh", "/t/test_b.sh", "", true⟩, ⟨"test_a.sh", "/t/test_a.sh", "", true⟩]
        ["test_*.sh"] ↔
      ∃ f ∈ [(⟨"test_b.sh", "/t/test_b.sh", "", true⟩ : FileEnt),
             ⟨"test_a.sh", "/t/test_a.sh", "", true⟩],
        f.isFile = true ∧ f.canonical = "/t/test_a.sh" ∧
          ∃ pat ∈ ["test_*.sh"], globMatch pat f.name = true) ∧
    TR.find_test_scripts [] ["test_*.sh"] = [] := by
  have h := c7_discovery_dedup_sorted
    [⟨"test_b.sh", "/t/test_b.sh", "", true⟩, ⟨"test_a.sh", "/t/test_a.sh", "", true⟩]
    ["test_*.sh"]
  exact ⟨h.2.2.1 "/t/test_a.sh", (c7_discovery_dedup_sorted [] ["test_*.sh"]).2.2.2⟩
